import Mathlib

/-!
Shallow embedding of the pytest-purkinje repository: the filesystem-change
handler (`pytest_purkinje/handler.py`) and the test-monitor plugin
(`pytest_purkinje/testmonitorplugin.py`).  Python floats for timestamps are
modelled as rationals, dictionaries as insertion-ordered association lists,
and a raised exception as an explicit boolean or `Except` component of the
result.
-/

/-- Watchdog filesystem events: `Created`/`Deleted`/`Modified` carry a source
path, `FileMovedEvent` also carries a destination path. -/
inductive FsEvent where
  | created (src_path : String)
  | deleted (src_path : String)
  | modified (src_path : String)
  | moved (src_path : String) (dest_path : String)
deriving DecidableEq

/-- The `src_path` attribute, present on every watchdog event. -/
def FsEvent.src_path : FsEvent → String
  | .created p => p
  | .deleted p => p
  | .modified p => p
  | .moved p _ => p

/-- `FILE_CACHE_SIZE` from `handler.py`. -/
def FILE_CACHE_SIZE : Nat := 10000

/-- `FILE_CACHE_AGE` from `handler.py` (seconds). -/
def FILE_CACHE_AGE : ℚ := 1

/-- The debounce cache (`expiringdict.ExpiringDict`), modelled as an
insertion-ordered association list from path to insertion timestamp, oldest
entry first. -/
abbrev FileCache := List (String × ℚ)

/-- `ExpiringDict.__contains__`: an entry younger than `FILE_CACHE_AGE`
answers true; a present but expired entry is deleted and the answer is false;
an absent key answers false.  Returns the answer together with the
possibly-updated cache. -/
def expContains (c : FileCache) (k : String) (now : ℚ) : Bool × FileCache :=
  match c.find? (fun p => p.1 == k) with
  | none => (false, c)
  | some e =>
    if now - e.2 < FILE_CACHE_AGE then (true, c)
    else (false, c.filter (fun p => !(p.1 == k)))

/-- `ExpiringDict.__setitem__`: at capacity, a still-live key is deleted
first, otherwise (after the membership probe may have dropped an expired
entry) the oldest entry is evicted; then the key is stored with the current
timestamp — in place when still present, else appended at the end. -/
def expSetItem (c : FileCache) (k : String) (now : ℚ) : FileCache :=
  let c1 :=
    if c.length = FILE_CACHE_SIZE then
      match expContains c k now with
      | (true, c') => c'.filter (fun p => !(p.1 == k))
      | (false, c') => c'.drop 1
    else c
  if c1.any (fun p => p.1 == k) then
    c1.map (fun p => if p.1 == k then (k, now) else p)
  else c1 ++ [(k, now)]

/-- The watcher state: `Handler._tests_running` and `Handler._file_cache`. -/
structure Handler where
  tests_running : Bool
  file_cache : FileCache
deriving DecidableEq

/-- `Handler.__init__`: running flag false, empty cache (via `clear_cache`). -/
def Handler.init : Handler := { tests_running := false, file_cache := [] }

/-- `Handler.clear_cache`. -/
def Handler.clear_cache (s : Handler) : Handler := { s with file_cache := [] }

/-- `Handler._filter`: `path.endswith('.py')` — whether a file is relevant
to test execution.  The suffix test is computed on the character list: a
string ends with `.py` iff the character list of `.py` is a suffix of its
character list. -/
def _filter (path : String) : Bool := List.isSuffixOf ".py".data path.data

/-- `Handler._is_relevant`: for a moved event the destination path is
checked, and the source path is re-checked unconditionally for any event. -/
def _is_relevant (e : FsEvent) : Bool :=
  let relevant :=
    match e with
    | .moved _ dest => _filter dest
    | _ => false
  relevant || _filter e.src_path

/-- `Handler._get_cache_key`: destination path for a moved event, else the
source path. -/
def _get_cache_key (e : FsEvent) : String :=
  match e with
  | .moved _ dest => dest
  | _ => e.src_path

/-- `Handler._trigger`, at an explicit current time `now`; the boolean result
records whether `run_tests` was invoked for this event. -/
def _trigger (s : Handler) (e : FsEvent) (now : ℚ) : Handler × Bool :=
  if s.tests_running then (s, false)
  else
    let relevant := _is_relevant e
    let cache_key := _get_cache_key e
    let mc := expContains s.file_cache cache_key now
    if mc.1 then ({ s with file_cache := mc.2 }, false)
    else ({ s with file_cache := expSetItem mc.2 cache_key now }, relevant)

/-- `Handler.run_tests`: sets the running flag, invokes `os.system` (whose
outcome, success or a raised failure, is `sysResult`), and resets the flag in
a `finally` block; the second component is what the caller observes. -/
def run_tests (s : Handler) (sysResult : Except String Unit) :
    Handler × Except String Unit :=
  let s1 := { s with tests_running := true }
  match sysResult with
  | .ok _ => ({ s1 with tests_running := false }, .ok ())
  | .error msg => ({ s1 with tests_running := false }, .error msg)

/-- `VERDICT_MAP` from `testmonitorplugin.py`; a dictionary lookup of an
unknown outcome raises `KeyError`, modelled as `none`. -/
def VERDICT_MAP (outcome : String) : Option String :=
  if outcome = "passed" then some "pass"
  else if outcome = "failed" then some "fail"
  else if outcome = "skipped" then some "skipped"
  else if outcome = "error" then some "error"
  else none

/-- The ambient process environment used for suite identity: hostname,
working directory, and the external `md5` hex digest function. -/
structure Env where
  hostname : String
  cwd : String
  md5hex : String → String

/-- `TestMonitorPlugin.suite_name`: `'{0}: {1}'.format(hostname, cwd)`. -/
def suite_name (env : Env) : String := env.hostname ++ ": " ++ env.cwd

/-- `TestMonitorPlugin.suite_hash`: md5 hex digest of the suite name. -/
def suite_hash (env : Env) : String := env.md5hex (suite_name env)

/-- One `pytest` test report as consumed by `pytest_runtest_logreport`:
`fspath`, `nodeid`, the keyword set, the phase attribute `when`, and the
outcome. -/
structure Report where
  fspath : String
  nodeid : String
  keywords : List String
  when : String
  outcome : String
deriving DecidableEq

/-- A node delivered by a collection report: either a genuine executable test
case (`pytest.Item`) or a non-test collection node. -/
inductive CollectNode where
  | item (nodeid : String)
  | nonItem (nodeid : String)
deriving DecidableEq

/-- `TestMonitorPlugin._is_relevant_tc`: `isinstance(tc, pytest.Item)`. -/
def _is_relevant_tc : CollectNode → Bool
  | .item _ => true
  | .nonItem _ => false

/-- The four wire events of `purkinje_messages` with the fields the plugin
fills in. -/
inductive WireEvent where
  | sessionStarted (suite_name : String) (suite_hash : String) (tc_count : Nat)
  | testCaseFinished (name : String) (file : String) (verdict : String)
      (duration : Int) (suite_hash : String)
  | sessionTerminated (suite_hash : String)
  | connectionTermination (suite_hash : String)
deriving DecidableEq

/-- Instance state of `TestMonitorPlugin` (the websocket handle is transport
glue and carries no event-logic state). -/
structure TestMonitorPlugin where
  reports : List Report
  test_cases : List (String × ℚ)
  current_suite : Option String
  start_message_sent : Bool
deriving DecidableEq

/-- Process-wide state: the class-level counter `TestMonitorPlugin.tc_count`
together with the current plugin instance. -/
structure PyProc where
  tc_count : Nat
  plugin : TestMonitorPlugin
deriving DecidableEq

/-- `TestMonitorPlugin.__init__`: fresh instance state; the class-level
counter is not touched. -/
def constructPlugin (ps : PyProc) : PyProc :=
  { ps with
    plugin := { reports := [], test_cases := [], current_suite := none,
                start_message_sent := false } }

/-- Process start: class attribute `tc_count = 0` and a first instance. -/
def initProc : PyProc :=
  { tc_count := 0,
    plugin := { reports := [], test_cases := [], current_suite := none,
                start_message_sent := false } }

/-- Python dict update `d[k] = v` on an ordered association list: in place
when the key is present, else appended. -/
def dictSet (d : List (String × ℚ)) (k : String) (v : ℚ) : List (String × ℚ) :=
  if d.any (fun p => p.1 == k) then
    d.map (fun p => if p.1 == k then (k, v) else p)
  else d ++ [(k, v)]

/-- Python dict lookup returning `none` when the key is absent. -/
def dictGet (d : List (String × ℚ)) (k : String) : Option ℚ :=
  (d.find? (fun p => p.1 == k)).map Prod.snd

/-- Python `int(..)` on a float: truncation toward zero. -/
def pyInt (q : ℚ) : Int := if 0 ≤ q then q.floor else q.ceil

/-- `TestMonitorPlugin.pytest_collectreport`: accumulate the number of
genuine test items into the class-level counter. -/
def pytest_collectreport (ps : PyProc) (result : List CollectNode) : PyProc :=
  { ps with tc_count := ps.tc_count + (result.filter _is_relevant_tc).length }

/-- The `report.when == 'setup'` branch of `pytest_runtest_logreport`:
record the current time under the report's node id. -/
def recordSetup (ps : PyProc) (r : Report) (now : ℚ) : PyProc :=
  if r.when = "setup" then
    { ps with
      plugin := { ps.plugin with
        test_cases := dictSet ps.plugin.test_cases r.nodeid now } }
  else ps

/-- The event-emitting tail of `pytest_runtest_logreport`: lazy
`_send_start_event` (which sets `_current_suite`, emits `SessionStartedEvent`
with the class-level counter, and marks the start sent), then the verdict
lookup, the `TestCaseFinishedEvent`, and the report-log append.  The third
component records whether the verdict lookup raised `KeyError`; events
already emitted before the raise are kept. -/
def finishCase (env : Env) (ps : PyProc) (r : Report)
    (tc_name tc_file : String) (duration : Int) :
    PyProc × List WireEvent × Bool :=
  let ps1 :=
    if !ps.plugin.start_message_sent then
      { ps with
        plugin := { ps.plugin with
          current_suite := some (suite_name env),
          start_message_sent := true } }
    else ps
  let startEvents :=
    if !ps.plugin.start_message_sent then
      [WireEvent.sessionStarted (suite_name env) (suite_hash env) ps.tc_count]
    else ([] : List WireEvent)
  match VERDICT_MAP r.outcome with
  | none => (ps1, startEvents, true)
  | some verdict =>
    ({ ps1 with
       plugin := { ps1.plugin with reports := ps1.plugin.reports ++ [r] } },
     startEvents ++
       [WireEvent.testCaseFinished tc_name tc_file verdict duration
         (suite_hash env)],
     false)

/-- The human-readable case-name computation at the top of
`pytest_runtest_logreport`: second `::`-component of the node id when
present, else the fixed pep8 label, else the raw keyword-set rendering. -/
def tcName (r : Report) : String :=
  let tc_components := r.nodeid.splitOn "::"
  if h : 1 < tc_components.length then tc_components.get ⟨1, h⟩
  else if r.keywords.contains "pep8" then "PEP8"
  else toString r.keywords

/-- `TestMonitorPlugin.pytest_runtest_logreport`, at an explicit current time
`now`.  Result: the new process state, the wire events emitted by this hook
call in order, and whether the call raised (`KeyError` on the verdict map). -/
def pytest_runtest_logreport (env : Env) (ps : PyProc) (r : Report)
    (now : ℚ) : PyProc × List WireEvent × Bool :=
  let tc_file := r.fspath
  let tc_name := tcName r
  let ps1 := recordSetup ps r now
  if r.when ≠ "call" ∧ ¬(r.when = "setup" ∧ r.outcome = "skipped") then
    (ps1, [], false)
  else if r.when = "call" then
    match dictGet ps1.plugin.test_cases r.nodeid with
    | none => (ps1, [], false)
    | some t0 => finishCase env ps1 r tc_name tc_file (pyInt ((now - t0) * 1000))
  else
    finishCase env ps1 r tc_name tc_file 0

/-- `TestMonitorPlugin.pytest_sessionfinish`: emits `SessionTerminatedEvent`
then `ConnectionTerminationEvent`, both carrying the suite hash. -/
def pytest_sessionfinish (env : Env) : List WireEvent :=
  [WireEvent.sessionTerminated (suite_hash env),
   WireEvent.connectionTermination (suite_hash env)]

/-- The framework driver for one session: deliver each per-test report to
`pytest_runtest_logreport` in order (a raised `KeyError` aborts only that
hook call), collecting all emitted events. -/
def runReports (env : Env) : PyProc → List (Report × ℚ) →
    PyProc × List WireEvent
  | ps, [] => (ps, [])
  | ps, c :: rest =>
    let out := pytest_runtest_logreport env ps c.1 c.2
    let outr := runReports env out.1 rest
    (outr.1, out.2.1 ++ outr.2)

/-- All wire events of one test session: a freshly constructed reporter (the
framework builds a new plugin instance per session) processes the per-test
reports in order, then the session-finish hook runs. -/
def sessionEvents (env : Env) (ps0 : PyProc)
    (calls : List (Report × ℚ)) : List WireEvent :=
  (runReports env (constructPlugin ps0) calls).2 ++ pytest_sessionfinish env

/-- Discriminator for `SessionStartedEvent`. -/
def isSessionStarted : WireEvent → Bool
  | .sessionStarted _ _ _ => true
  | _ => false

/-- Discriminator for `TestCaseFinishedEvent`. -/
def isTestCaseFinished : WireEvent → Bool
  | .testCaseFinished _ _ _ _ _ => true
  | _ => false

/-- Discriminator for the two session-end events. -/
def isTerminationEvent : WireEvent → Bool
  | .sessionTerminated _ => true
  | .connectionTermination _ => true
  | _ => false

/-- A concrete environment for witnesses (identity stands in for the
external digest function). -/
def envEx : Env := { hostname := "host", cwd := "/work", md5hex := fun s => s }

/-- Concrete report: setup phase of case one. -/
def rSetupA : Report :=
  { fspath := "test_a.py", nodeid := "test_a.py::test_one", keywords := [],
    when := "setup", outcome := "passed" }

/-- Concrete report: call phase of case one, passed. -/
def rCallA : Report := { rSetupA with when := "call" }

/-- Concrete report: setup phase of case two. -/
def rSetupB : Report :=
  { fspath := "test_b.py", nodeid := "test_b.py::test_two", keywords := [],
    when := "setup", outcome := "passed" }

/-- Concrete report: call phase of case two, failed. -/
def rCallB : Report := { rSetupB with when := "call", outcome := "failed" }

/-- Concrete report: a case skipped entirely during setup. -/
def rSkip : Report :=
  { fspath := "test_c.py", nodeid := "test_c.py::test_three", keywords := [],
    when := "setup", outcome := "skipped" }

/-- Concrete report: a call-phase result with an unmapped outcome. -/
def rBad : Report :=
  { fspath := "test_d.py", nodeid := "test_d.py::test_four", keywords := [],
    when := "call", outcome := "banana" }

/-- The spec's example session: setup(A), call(A, passed), setup(B),
call(B, failed). -/
def callsEx : List (Report × ℚ) :=
  [(rSetupA, 0), (rCallA, 1), (rSetupB, 2), (rCallB, 3)]

/-- A process state whose plugin has a recorded setup time for `rBad`. -/
def psBad : PyProc :=
  { tc_count := 0,
    plugin := { reports := [], test_cases := [(rBad.nodeid, 0)],
                current_suite := none, start_message_sent := false } }

/-! ## Lemmas about the debounce cache -/

lemma expContains_false_not_mem (c : FileCache) (k : String) (now : ℚ)
    (h : (expContains c k now).1 = false) :
    ∀ p ∈ (expContains c k now).2, (p.1 == k) = false := by
  intro p hp
  cases hfind : c.find? (fun p => p.1 == k) with
  | none =>
    have h2 : (expContains c k now).2 = c := by
      unfold expContains
      rw [hfind]
    rw [h2] at hp
    have := List.find?_eq_none.mp hfind p hp
    simpa using this
  | some a =>
    have hc : expContains c k now =
        if now - a.2 < FILE_CACHE_AGE then (true, c)
        else (false, c.filter (fun p => !(p.1 == k))) := by
      unfold expContains
      rw [hfind]
    by_cases hlt : now - a.2 < FILE_CACHE_AGE
    · rw [hc, if_pos hlt] at h
      simp at h
    · rw [hc, if_neg hlt] at hp
      have := (List.mem_filter.mp hp).2
      simpa using this

lemma expSetItem_not_mem (c : FileCache) (k : String) (now : ℚ)
    (h : ∀ p ∈ c, (p.1 == k) = false) :
    ∃ c1, expSetItem c k now = c1 ++ [(k, now)] ∧
      ∀ p ∈ c1, (p.1 == k) = false := by
  unfold expSetItem
  have hfind : c.find? (fun p => p.1 == k) = none :=
    List.find?_eq_none.mpr (by intro p hp; simp [h p hp])
  have hc1 : (if c.length = FILE_CACHE_SIZE then
      match expContains c k now with
      | (true, c') => c'.filter (fun p => !(p.1 == k))
      | (false, c') => c'.drop 1
    else c) = (if c.length = FILE_CACHE_SIZE then c.drop 1 else c) := by
    by_cases hlen : c.length = FILE_CACHE_SIZE
    · simp only [hlen, if_true]
      unfold expContains
      rw [hfind]
    · simp [hlen]
  rw [hc1]
  by_cases hlen : c.length = FILE_CACHE_SIZE
  · simp only [hlen, if_true]
    have hdrop : ∀ p ∈ c.drop 1, (p.1 == k) = false :=
      fun p hp => h p (List.drop_subset 1 c hp)
    have hany : (c.drop 1).any (fun p => p.1 == k) = false := by
      rw [List.any_eq_false]
      intro p hp
      simp [hdrop p hp]
    rw [hany]
    exact ⟨c.drop 1, by simp, hdrop⟩
  · simp only [hlen, if_false]
    have hany : c.any (fun p => p.1 == k) = false := by
      rw [List.any_eq_false]
      intro p hp
      simp [h p hp]
    rw [hany]
    exact ⟨c, by simp, h⟩

lemma find?_key_append (l : FileCache) (k : String) (t : ℚ)
    (h : ∀ p ∈ l, (p.1 == k) = false) :
    (l ++ [(k, t)]).find? (fun p => p.1 == k) = some (k, t) := by
  induction l with
  | nil => simp [List.find?]
  | cons a l ih =>
    have ha : (a.1 == k) = false := h a (by simp)
    simp only [List.cons_append, List.find?_cons, ha]
    exact ih (fun p hp => h p (by simp [hp]))

lemma expContains_appended (c1 : FileCache) (k : String) (t now : ℚ)
    (h : ∀ p ∈ c1, (p.1 == k) = false) :
    expContains (c1 ++ [(k, t)]) k now =
      if now - t < FILE_CACHE_AGE then (true, c1 ++ [(k, t)])
      else (false, (c1 ++ [(k, t)]).filter (fun p => !(p.1 == k))) := by
  unfold expContains
  rw [find?_key_append c1 k t h]

lemma trigger_fresh (s : Handler) (e : FsEvent) (t1 : ℚ)
    (hrun : s.tests_running = false)
    (hlive : (expContains s.file_cache (_get_cache_key e) t1).1 = false) :
    _trigger s e t1 =
      (Handler.mk s.tests_running
        (expSetItem (expContains s.file_cache (_get_cache_key e) t1).2
          (_get_cache_key e) t1),
       _is_relevant e) := by
  unfold _trigger
  rw [hrun]
  simp [hlive]

/-! ## Lemmas about the reporter -/

lemma isTestCaseFinished_not_started {e : WireEvent}
    (h : isTestCaseFinished e = true) : isSessionStarted e = false := by
  cases e <;> simp_all [isTestCaseFinished, isSessionStarted]

lemma isTestCaseFinished_not_termination {e : WireEvent}
    (h : isTestCaseFinished e = true) : isTerminationEvent e = false := by
  cases e <;> simp_all [isTestCaseFinished, isTerminationEvent]

lemma recordSetup_plugin (ps : PyProc) (r : Report) (now : ℚ) :
    (recordSetup ps r now).plugin.start_message_sent =
        ps.plugin.start_message_sent ∧
      (recordSetup ps r now).tc_count = ps.tc_count := by
  unfold recordSetup
  split <;> simp

lemma finishCase_shape (env : Env) (ps : PyProc) (r : Report)
    (nm fl : String) (d : Int) :
    (finishCase env ps r nm fl d).1.plugin.start_message_sent = true ∧
    (ps.plugin.start_message_sent = true →
      ∀ e ∈ (finishCase env ps r nm fl d).2.1, isTestCaseFinished e = true) ∧
    (ps.plugin.start_message_sent = false →
      ∃ tl, (finishCase env ps r nm fl d).2.1 =
          WireEvent.sessionStarted (suite_name env) (suite_hash env)
            ps.tc_count :: tl ∧
        ∀ e ∈ tl, isTestCaseFinished e = true) := by
  unfold finishCase
  cases hflag : ps.plugin.start_message_sent with
  | true =>
    simp only [hflag]
    cases hv : VERDICT_MAP r.outcome with
    | none => simp [hflag]
    | some verdict =>
      refine ⟨by simp [hflag], fun _ => ?_, by simp⟩
      intro e he
      simp only [Bool.not_true, if_neg] at he
      simp at he
      simp [he, isTestCaseFinished]
  | false =>
    simp only [hflag]
    cases hv : VERDICT_MAP r.outcome with
    | none => simp [hflag]
    | some verdict =>
      refine ⟨by simp, by simp, fun _ => ?_⟩
      refine ⟨[WireEvent.testCaseFinished nm fl verdict d (suite_hash env)],
        by simp, ?_⟩
      intro e he
      simp at he
      simp [he, isTestCaseFinished]

lemma logreport_shape (env : Env) (ps : PyProc) (r : Report) (t : ℚ) :
    (ps.plugin.start_message_sent = true →
      (pytest_runtest_logreport env ps r t).1.plugin.start_message_sent = true ∧
      ∀ e ∈ (pytest_runtest_logreport env ps r t).2.1,
        isTestCaseFinished e = true) ∧
    (ps.plugin.start_message_sent = false →
      ((pytest_runtest_logreport env ps r t).1.plugin.start_message_sent =
          false ∧
        (pytest_runtest_logreport env ps r t).2.1 = []) ∨
      ((pytest_runtest_logreport env ps r t).1.plugin.start_message_sent =
          true ∧
        ∃ tl, (pytest_runtest_logreport env ps r t).2.1 =
            WireEvent.sessionStarted (suite_name env) (suite_hash env)
              ps.tc_count :: tl ∧
          ∀ e ∈ tl, isTestCaseFinished e = true)) := by
  have hrec := recordSetup_plugin ps r t
  simp only [pytest_runtest_logreport]
  split
  · constructor
    · intro hflag
      exact ⟨by rw [hrec.1, hflag], by simp⟩
    · intro hflag
      exact Or.inl ⟨by rw [hrec.1, hflag], rfl⟩
  · have hfin : ∀ nm fl d,
        (ps.plugin.start_message_sent = true →
          (finishCase env (recordSetup ps r t) r nm fl
              d).1.plugin.start_message_sent = true ∧
          ∀ e ∈ (finishCase env (recordSetup ps r t) r nm fl d).2.1,
            isTestCaseFinished e = true) ∧
        (ps.plugin.start_message_sent = false →
          ((finishCase env (recordSetup ps r t) r nm fl
              d).1.plugin.start_message_sent = false ∧
            (finishCase env (recordSetup ps r t) r nm fl d).2.1 = []) ∨
          ((finishCase env (recordSetup ps r t) r nm fl
              d).1.plugin.start_message_sent = true ∧
            ∃ tl, (finishCase env (recordSetup ps r t) r nm fl d).2.1 =
                WireEvent.sessionStarted (suite_name env) (suite_hash env)
                  ps.tc_count :: tl ∧
              ∀ e ∈ tl, isTestCaseFinished e = true)) := by
      intro nm fl d
      have hsh := finishCase_shape env (recordSetup ps r t) r nm fl d
      constructor
      · intro hflag
        exact ⟨hsh.1, hsh.2.1 (by rw [hrec.1, hflag])⟩
      · intro hflag
        refine Or.inr ⟨hsh.1, ?_⟩
        have := hsh.2.2 (by rw [hrec.1, hflag])
        rwa [hrec.2] at this
    split
    · split
      · constructor
        · intro hflag
          exact ⟨by rw [hrec.1, hflag], by simp⟩
        · intro hflag
          exact Or.inl ⟨by rw [hrec.1, hflag], rfl⟩
      · exact hfin _ _ _
    · exact hfin _ _ _

lemma runReports_shape (env : Env) :
    ∀ (calls : List (Report × ℚ)) (ps : PyProc),
    (ps.plugin.start_message_sent = true →
      ∀ e ∈ (runReports env ps calls).2, isTestCaseFinished e = true) ∧
    (ps.plugin.start_message_sent = false →
      (runReports env ps calls).2 = [] ∨
      ∃ sn sh n tl, (runReports env ps calls).2 =
          WireEvent.sessionStarted sn sh n :: tl ∧
        ∀ e ∈ tl, isTestCaseFinished e = true)
  | [], ps => by
    constructor
    · intro _ e he
      simp [runReports] at he
    · intro _
      exact Or.inl (by simp [runReports])
  | c :: rest, ps => by
    have hstep := logreport_shape env ps c.1 c.2
    have ih := runReports_shape env rest (pytest_runtest_logreport env ps c.1 c.2).1
    have hsplit : (runReports env ps (c :: rest)).2 =
        (pytest_runtest_logreport env ps c.1 c.2).2.1 ++
          (runReports env (pytest_runtest_logreport env ps c.1 c.2).1 rest).2 := by
      simp [runReports]
    constructor
    · intro hflag e he
      rw [hsplit] at he
      rcases List.mem_append.mp he with h1 | h2
      · exact (hstep.1 hflag).2 e h1
      · exact ih.1 (hstep.1 hflag).1 e h2
    · intro hflag
      rcases hstep.2 hflag with ⟨hflag1, hev1⟩ | ⟨hflag1, tl, hev1, htl⟩
      · rw [hsplit, hev1, List.nil_append]
        exact ih.2 hflag1
      · refine Or.inr ⟨suite_name env, suite_hash env, ps.tc_count,
          tl ++ (runReports env (pytest_runtest_logreport env ps c.1 c.2).1
            rest).2, ?_, ?_⟩
        · rw [hsplit, hev1, List.cons_append]
        · intro e he
          rcases List.mem_append.mp he with h1 | h2
          · exact htl e h1
          · exact ih.1 hflag1 e h2

/-! ## Claims about the change watcher -/

/-- C3: for every incoming event of any kind, if the running flag is true
when the event is processed then `_trigger` returns with no side effects:
`run_tests` is not invoked and the debounce cache is not mutated. -/
theorem claim_C3_running_flag_ignores_events (s : Handler) (e : FsEvent)
    (now : ℚ) (h : s.tests_running = true) :
    _trigger s e now = (s, false) := by
  unfold _trigger
  rw [h]
  simp

/-- Witness for C3 at a concrete state and event. -/
theorem claim_C3_witness :
    (Handler.mk true [("/w/a.py", 0)]).tests_running = true ∧
    _trigger (Handler.mk true [("/w/a.py", 0)])
        (FsEvent.modified "/w/b.py") 5 =
      (Handler.mk true [("/w/a.py", 0)], false) :=
  ⟨rfl, claim_C3_running_flag_ignores_events _ _ _ rfl⟩

/-- C4: `run_tests` always resets the running flag to false before returning
or before a raised failure reaches the caller, and a raised failure is
observed unchanged by the caller. -/
theorem claim_C4_run_tests_resets_flag (s : Handler)
    (sysResult : Except String Unit) :
    (run_tests s sysResult).1.tests_running = false ∧
    (run_tests s sysResult).2 = sysResult := by
  cases sysResult with
  | ok u => cases u; exact ⟨rfl, rfl⟩
  | error msg => exact ⟨rfl, rfl⟩

/-- C6: a moved event is relevant iff its destination or its source path
ends in `.py`; in particular a file moved from a `.py` path to a non-`.py`
path is still treated as relevant. -/
theorem claim_C6_moved_relevance (src dest : String) :
    (_is_relevant (FsEvent.moved src dest) =
      (_filter dest || _filter src)) ∧
    _is_relevant (FsEvent.moved "/w/a.py" "/w/a.txt") = true := by
  constructor
  · simp [_is_relevant, _filter, FsEvent.src_path]
  · decide

/-- C2: a relevant event delivered with the running flag false and its cache
key not live in the debounce cache causes exactly one `run_tests` invocation;
a second event with the same cache key within `FILE_CACHE_AGE` causes no
invocation; the same event delivered once the window has elapsed triggers a
second invocation. -/
theorem claim_C2_debounce_window (s : Handler) (e e2 : FsEvent)
    (t1 t2 t3 : ℚ)
    (hrun : s.tests_running = false)
    (hrel : _is_relevant e = true)
    (hk2 : _get_cache_key e2 = _get_cache_key e)
    (hlive : (expContains s.file_cache (_get_cache_key e) t1).1 = false)
    (h2 : t2 - t1 < FILE_CACHE_AGE)
    (h3 : FILE_CACHE_AGE ≤ t3 - t1) :
    (_trigger s e t1).2 = true ∧
    (_trigger (_trigger s e t1).1 e2 t2).2 = false ∧
    (_trigger (_trigger s e t1).1 e t3).2 = true := by
  have hfree := expContains_false_not_mem _ _ _ hlive
  obtain ⟨c1, hc, hc1free⟩ :=
    expSetItem_not_mem (expContains s.file_cache (_get_cache_key e) t1).2
      (_get_cache_key e) t1 hfree
  have h1 := trigger_fresh s e t1 hrun hlive
  have hs1 : (_trigger s e t1).1 =
      Handler.mk false (c1 ++ [(_get_cache_key e, t1)]) := by
    rw [h1, hrun, hc]
  refine ⟨by rw [h1]; exact hrel, ?_, ?_⟩
  · rw [hs1]
    simp only [_trigger, hk2]
    rw [expContains_appended c1 (_get_cache_key e) t1 t2 hc1free,
      if_pos h2]
    simp
  · rw [hs1]
    simp only [_trigger]
    rw [expContains_appended c1 (_get_cache_key e) t1 t3 hc1free,
      if_neg (not_lt.mpr h3)]
    simp [hrel]

/-- Witness for C2: a modified `.py` file at time 0, the same event at time
1/2 (suppressed) and at time 2 (triggers again), from a fresh handler. -/
theorem claim_C2_witness :
    Handler.init.tests_running = false ∧
    _is_relevant (FsEvent.modified "/w/a.py") = true ∧
    (expContains Handler.init.file_cache
      (_get_cache_key (FsEvent.modified "/w/a.py")) 0).1 = false ∧
    ((2 : ℚ) / 4 - 0 < FILE_CACHE_AGE) ∧
    (FILE_CACHE_AGE ≤ (2 : ℚ) - 0) ∧
    ((_trigger Handler.init (FsEvent.modified "/w/a.py") 0).2 = true ∧
      (_trigger (_trigger Handler.init (FsEvent.modified "/w/a.py") 0).1
        (FsEvent.modified "/w/a.py") ((2 : ℚ) / 4)).2 = false ∧
      (_trigger (_trigger Handler.init (FsEvent.modified "/w/a.py") 0).1
        (FsEvent.modified "/w/a.py") 2).2 = true) :=
  ⟨rfl, by decide, rfl, by norm_num [FILE_CACHE_AGE],
    by norm_num [FILE_CACHE_AGE],
    claim_C2_debounce_window Handler.init (FsEvent.modified "/w/a.py")
      (FsEvent.modified "/w/a.py") 0 ((2 : ℚ) / 4) 2 rfl (by decide) rfl rfl
      (by norm_num [FILE_CACHE_AGE]) (by norm_num [FILE_CACHE_AGE])⟩

/-- C5 counterexample: for the moved event `/w/a.py → /w/a.txt` the
effective path (the destination) does not end in `.py` and the running flag
is false, yet `run_tests` is invoked — because `_is_relevant`
unconditionally re-checks the source path.  This refutes the claim that no
test-run invocation occurs for every such event. -/
theorem claim_C5_counterexample :
    _filter (_get_cache_key (FsEvent.moved "/w/a.py" "/w/a.txt")) = false ∧
    Handler.init.tests_running = false ∧
    (_trigger Handler.init (FsEvent.moved "/w/a.py" "/w/a.txt") 0).2 =
      true := by
  refine ⟨by decide, rfl, by decide⟩

/-- C5 (amended): for every event that is not relevant — its effective path
does not end in `.py` and, for a moved event, its source path does not end
in `.py` either — delivered while the running flag is false and with its
cache key not a live cache entry, no test-run invocation occurs, the
effective path is still recorded in the debounce cache exactly once, and a
second event with the same cache key within the window is suppressed without
re-entering the cache as a duplicate key. -/
theorem claim_C5_irrelevant_recorded (s : Handler) (e : FsEvent) (t1 t2 : ℚ)
    (hrun : s.tests_running = false)
    (hirr : _is_relevant e = false)
    (hlive : (expContains s.file_cache (_get_cache_key e) t1).1 = false)
    (h2 : t2 - t1 < FILE_CACHE_AGE) :
    (_trigger s e t1).2 = false ∧
    ((_trigger s e t1).1.file_cache.countP
        (fun p => p.1 == _get_cache_key e) = 1) ∧
    _trigger (_trigger s e t1).1 e t2 = ((_trigger s e t1).1, false) := by
  have hfree := expContains_false_not_mem _ _ _ hlive
  obtain ⟨c1, hc, hc1free⟩ :=
    expSetItem_not_mem (expContains s.file_cache (_get_cache_key e) t1).2
      (_get_cache_key e) t1 hfree
  have h1 := trigger_fresh s e t1 hrun hlive
  have hs1 : (_trigger s e t1).1 =
      Handler.mk false (c1 ++ [(_get_cache_key e, t1)]) := by
    rw [h1, hrun, hc]
  refine ⟨by rw [h1]; exact hirr, ?_, ?_⟩
  · rw [hs1]
    show (c1 ++ [(_get_cache_key e, t1)]).countP
        (fun p => p.1 == _get_cache_key e) = 1
    rw [List.countP_append]
    rw [List.countP_eq_zero.mpr (by intro p hp; simp [hc1free p hp])]
    simp [List.countP_cons]
  · rw [hs1]
    simp only [_trigger]
    rw [expContains_appended c1 (_get_cache_key e) t1 t2 hc1free, if_pos h2]
    simp

/-- Witness for the amended C5: a modified `.txt` file at time 0 is recorded
but does not trigger, and the same event at time 1/2 is suppressed leaving
the state unchanged. -/
theorem claim_C5_witness :
    Handler.init.tests_running = false ∧
    _is_relevant (FsEvent.modified "/w/a.txt") = false ∧
    ((2 : ℚ) / 4 - 0 < FILE_CACHE_AGE) ∧
    ((_trigger Handler.init (FsEvent.modified "/w/a.txt") 0).2 = false ∧
      ((_trigger Handler.init (FsEvent.modified "/w/a.txt") 0).1.file_cache.countP
        (fun p => p.1 == _get_cache_key (FsEvent.modified "/w/a.txt")) = 1) ∧
      _trigger (_trigger Handler.init (FsEvent.modified "/w/a.txt") 0).1
          (FsEvent.modified "/w/a.txt") ((2 : ℚ) / 4) =
        ((_trigger Handler.init (FsEvent.modified "/w/a.txt") 0).1, false)) :=
  ⟨rfl, by decide, by norm_num [FILE_CACHE_AGE],
    claim_C5_irrelevant_recorded Handler.init (FsEvent.modified "/w/a.txt")
      0 ((2 : ℚ) / 4) rfl (by decide) rfl (by norm_num [FILE_CACHE_AGE])⟩

lemma no_start_precede (l : List WireEvent)
    (h : ∀ e ∈ l, isSessionStarted e = false) :
    ∀ i j, (hi : i < l.length) → (hj : j < l.length) →
      isSessionStarted (l.get ⟨i, hi⟩) = true →
      isTestCaseFinished (l.get ⟨j, hj⟩) = true → i < j := by
  intro i j hi hj hstart _
  have := h (l.get ⟨i, hi⟩) (List.get_mem l i hi)
  rw [hstart] at this
  cases this

lemma start_head_precede (l : List WireEvent) (a : WireEvent)
    (rest : List WireEvent) (hl : l = a :: rest)
    (ha : isTestCaseFinished a = false)
    (h : ∀ e ∈ rest, isSessionStarted e = false) :
    ∀ i j, (hi : i < l.length) → (hj : j < l.length) →
      isSessionStarted (l.get ⟨i, hi⟩) = true →
      isTestCaseFinished (l.get ⟨j, hj⟩) = true → i < j := by
  subst hl
  intro i j hi hj hstart htcf
  cases i with
  | zero =>
    cases j with
    | zero =>
      have hj0 : isTestCaseFinished a = true := htcf
      rw [hj0] at ha
      cases ha
    | succ j => exact Nat.succ_pos j
  | succ i =>
    have hmem : (a :: rest).get ⟨i + 1, hi⟩ ∈ rest := by
      have heq : (a :: rest).get ⟨i + 1, hi⟩ =
          rest.get ⟨i, Nat.lt_of_succ_lt_succ hi⟩ := rfl
      rw [heq]
      exact List.get_mem rest i (Nat.lt_of_succ_lt_succ hi)
    have := h _ hmem
    rw [hstart] at this
    cases this

/-- C1: within one session (driven from a freshly constructed reporter, as
the framework constructs a new plugin per session), the SessionStarted
event, if sent at all, is sent exactly once and precedes every
TestCaseFinished event; at session finish a SessionTerminated event followed
immediately by a ConnectionTermination event is emitted, in that fixed
order, and these two come last, regardless of whether any cases ran or
whether the start event was ever sent. -/
theorem claim_C1_session_event_order (env : Env) (ps0 : PyProc)
    (calls : List (Report × ℚ)) :
    (sessionEvents env ps0 calls).countP isSessionStarted ≤ 1 ∧
    (∀ i j, (hi : i < (sessionEvents env ps0 calls).length) →
      (hj : j < (sessionEvents env ps0 calls).length) →
      isSessionStarted ((sessionEvents env ps0 calls).get ⟨i, hi⟩) = true →
      isTestCaseFinished ((sessionEvents env ps0 calls).get ⟨j, hj⟩) = true →
      i < j) ∧
    (∃ body, sessionEvents env ps0 calls = body ++
        [WireEvent.sessionTerminated (suite_hash env),
         WireEvent.connectionTermination (suite_hash env)] ∧
      body.countP isTerminationEvent = 0) := by
  have hflag : (constructPlugin ps0).plugin.start_message_sent = false := rfl
  have hshape := (runReports_shape env calls (constructPlugin ps0)).2 hflag
  rcases hshape with hnil | ⟨sn, sh, n, tl, hev, htl⟩
  · have hsess : sessionEvents env ps0 calls =
        [WireEvent.sessionTerminated (suite_hash env),
         WireEvent.connectionTermination (suite_hash env)] := by
      rw [sessionEvents, hnil]
      rfl
    refine ⟨?_, ?_, ⟨[], by rw [hsess]; rfl, by simp⟩⟩
    · rw [hsess]
      simp [List.countP_cons, isSessionStarted]
    · apply no_start_precede
      intro e he
      rw [hsess] at he
      simp at he
      rcases he with h | h <;> simp [h, isSessionStarted]
  · have hsess : sessionEvents env ps0 calls =
        WireEvent.sessionStarted sn sh n ::
          (tl ++ pytest_sessionfinish env) := by
      rw [sessionEvents, hev]
      rfl
    have hrest : ∀ e ∈ tl ++ pytest_sessionfinish env,
        isSessionStarted e = false := by
      intro e he
      rcases List.mem_append.mp he with h | h
      · exact isTestCaseFinished_not_started (htl e h)
      · simp [pytest_sessionfinish] at h
        rcases h with h | h <;> simp [h, isSessionStarted]
    refine ⟨?_, ?_, ?_⟩
    · rw [hsess, List.countP_cons,
        List.countP_eq_zero.mpr (by intro e he; simp [hrest e he])]
      simp [isSessionStarted]
    · exact start_head_precede _ _ _ hsess (by simp [isTestCaseFinished])
        hrest
    · refine ⟨WireEvent.sessionStarted sn sh n :: tl, ?_, ?_⟩
      · rw [hsess]
        simp [pytest_sessionfinish]
      · refine List.countP_eq_zero.mpr ?_
        intro e he
        rcases List.mem_cons.mp he with h | h
        · subst h
          simp [isTerminationEvent]
        · simp [isTestCaseFinished_not_termination (htl e h)]

/-! ## Claims about the session reporter -/

/-- Witness for C1 at the spec's example session from a fresh reporter. -/
theorem claim_C1_witness :
    (sessionEvents envEx initProc callsEx).countP isSessionStarted ≤ 1 ∧
    (∀ i j, (hi : i < (sessionEvents envEx initProc callsEx).length) →
      (hj : j < (sessionEvents envEx initProc callsEx).length) →
      isSessionStarted
        ((sessionEvents envEx initProc callsEx).get ⟨i, hi⟩) = true →
      isTestCaseFinished
        ((sessionEvents envEx initProc callsEx).get ⟨j, hj⟩) = true →
      i < j) ∧
    (∃ body, sessionEvents envEx initProc callsEx = body ++
        [WireEvent.sessionTerminated (suite_hash envEx),
         WireEvent.connectionTermination (suite_hash envEx)] ∧
      body.countP isTerminationEvent = 0) :=
  claim_C1_session_event_order envEx initProc callsEx

/-- C7: a per-test-result hook call with phase `setup` and outcome `skipped`
(the only hook call such a case ever gets) emits exactly one
TestCaseFinished event, carrying verdict `skipped` and duration 0, and does
not raise. -/
theorem claim_C7_setup_skip_event (env : Env) (ps : PyProc) (r : Report)
    (now : ℚ) (hw : r.when = "setup") (ho : r.outcome = "skipped") :
    ((pytest_runtest_logreport env ps r now).2.1.countP
        isTestCaseFinished = 1) ∧
    (WireEvent.testCaseFinished (tcName r) r.fspath "skipped" 0
        (suite_hash env) ∈ (pytest_runtest_logreport env ps r now).2.1) ∧
    (pytest_runtest_logreport env ps r now).2.2 = false := by
  simp only [pytest_runtest_logreport]
  rw [hw, ho]
  rw [if_neg (by decide), if_neg (by decide)]
  simp only [finishCase]
  rw [ho, show VERDICT_MAP "skipped" = some "skipped" from rfl]
  cases hflag : (recordSetup ps r now).plugin.start_message_sent with
  | false =>
    simp [hflag, List.countP_cons, isTestCaseFinished, isSessionStarted]
  | true =>
    simp [hflag, List.countP_cons, isTestCaseFinished]

/-- Witness for C7 at a concrete setup-skipped report. -/
theorem claim_C7_witness :
    rSkip.when = "setup" ∧ rSkip.outcome = "skipped" ∧
    (((pytest_runtest_logreport envEx initProc rSkip 0).2.1.countP
        isTestCaseFinished = 1) ∧
      (WireEvent.testCaseFinished (tcName rSkip) rSkip.fspath "skipped" 0
        (suite_hash envEx) ∈
          (pytest_runtest_logreport envEx initProc rSkip 0).2.1) ∧
      (pytest_runtest_logreport envEx initProc rSkip 0).2.2 = false) :=
  ⟨rfl, rfl, claim_C7_setup_skip_event envEx initProc rSkip 0 rfl rfl⟩

/-- C9: a per-test-result hook call that reaches event emission (call phase
with a recorded setup time, or the setup-skip path) with an outcome outside
the four known ones fails loudly: the hook raises on the verdict lookup and
no TestCaseFinished event is emitted. -/
theorem claim_C9_unmapped_outcome_raises (env : Env) (ps : PyProc)
    (r : Report) (now : ℚ)
    (hreach : (r.when = "call" ∧
        (dictGet ps.plugin.test_cases r.nodeid).isSome = true) ∨
      (r.when = "setup" ∧ r.outcome = "skipped"))
    (hout : VERDICT_MAP r.outcome = none) :
    (pytest_runtest_logreport env ps r now).2.2 = true ∧
    (pytest_runtest_logreport env ps r now).2.1.countP
      isTestCaseFinished = 0 := by
  rcases hreach with ⟨hw, hrec⟩ | ⟨hw, ho⟩
  · obtain ⟨t0, ht0⟩ := Option.isSome_iff_exists.mp hrec
    have hrs : recordSetup ps r now = ps := by
      unfold recordSetup
      rw [hw]
      simp
    have hred : pytest_runtest_logreport env ps r now =
        finishCase env ps r (tcName r) r.fspath
          (pyInt ((now - t0) * 1000)) := by
      simp only [pytest_runtest_logreport]
      rw [hw, hrs, ht0]
      rfl
    rw [hred]
    simp only [finishCase]
    rw [hout]
    cases hflag : ps.plugin.start_message_sent with
    | false => simp [hflag, isTestCaseFinished, isSessionStarted]
    | true => simp [hflag]
  · rw [ho] at hout
    exact absurd hout (by decide)

/-- Witness for C9 at a concrete call-phase report with outcome `banana`. -/
theorem claim_C9_witness :
    (rBad.when = "call" ∧
      (dictGet psBad.plugin.test_cases rBad.nodeid).isSome = true) ∧
    VERDICT_MAP rBad.outcome = none ∧
    ((pytest_runtest_logreport envEx psBad rBad 1).2.2 = true ∧
      (pytest_runtest_logreport envEx psBad rBad 1).2.1.countP
        isTestCaseFinished = 0) :=
  ⟨⟨rfl, rfl⟩, rfl,
    claim_C9_unmapped_outcome_raises envEx psBad rBad 1
      (Or.inl ⟨rfl, rfl⟩) rfl⟩

/-- C10: when the first reportable result of a session carries an unmapped
outcome, the failure is not atomic: the SessionStarted event has already
been emitted and the start-sent flag set when the verdict lookup raises, and
neither is rolled back — so across every later sequence of per-test hook
calls of the same session (setup, call, reportable or not), no
SessionStarted event is ever emitted again. -/
theorem claim_C10_start_not_rolled_back (env : Env) (ps : PyProc)
    (r1 : Report) (t1 : ℚ)
    (hflag : ps.plugin.start_message_sent = false)
    (hw : r1.when = "call")
    (hrec : (dictGet ps.plugin.test_cases r1.nodeid).isSome = true)
    (hout : VERDICT_MAP r1.outcome = none) :
    (pytest_runtest_logreport env ps r1 t1).2.2 = true ∧
    (pytest_runtest_logreport env ps r1 t1).2.1 =
      [WireEvent.sessionStarted (suite_name env) (suite_hash env)
        ps.tc_count] ∧
    (pytest_runtest_logreport env ps r1 t1).1.plugin.start_message_sent =
      true ∧
    (∀ rest : List (Report × ℚ), (runReports env
        (pytest_runtest_logreport env ps r1 t1).1 rest).2.countP
        isSessionStarted = 0) := by
  obtain ⟨t0, ht0⟩ := Option.isSome_iff_exists.mp hrec
  have hrs : recordSetup ps r1 t1 = ps := by
    unfold recordSetup
    rw [hw]
    simp
  have hred : pytest_runtest_logreport env ps r1 t1 =
      finishCase env ps r1 (tcName r1) r1.fspath
        (pyInt ((t1 - t0) * 1000)) := by
    simp only [pytest_runtest_logreport]
    rw [hw, hrs, ht0]
    rfl
  have hfin : finishCase env ps r1 (tcName r1) r1.fspath
      (pyInt ((t1 - t0) * 1000)) =
      (PyProc.mk ps.tc_count
        (TestMonitorPlugin.mk ps.plugin.reports ps.plugin.test_cases
          (some (suite_name env)) true),
       [WireEvent.sessionStarted (suite_name env) (suite_hash env)
         ps.tc_count],
       true) := by
    simp only [finishCase]
    rw [hflag, hout]
    rfl
  have hflag1 : (pytest_runtest_logreport env ps r1
      t1).1.plugin.start_message_sent = true := by
    rw [hred, hfin]
  refine ⟨by rw [hred, hfin], by rw [hred, hfin], hflag1, ?_⟩
  intro rest
  have hall := (runReports_shape env rest
    (pytest_runtest_logreport env ps r1 t1).1).1 hflag1
  exact List.countP_eq_zero.mpr
    (fun e he => by simp [isTestCaseFinished_not_started (hall e he)])

/-- Witness for C10 at a fresh process with a recorded setup time for the
bad-outcome report, followed by a well-formed setup-skip report. -/
theorem claim_C10_witness :
    psBad.plugin.start_message_sent = false ∧
    rBad.when = "call" ∧
    (dictGet psBad.plugin.test_cases rBad.nodeid).isSome = true ∧
    VERDICT_MAP rBad.outcome = none ∧
    ((pytest_runtest_logreport envEx psBad rBad 1).2.2 = true ∧
      (pytest_runtest_logreport envEx psBad rBad 1).2.1 =
        [WireEvent.sessionStarted (suite_name envEx) (suite_hash envEx)
          psBad.tc_count] ∧
      (pytest_runtest_logreport envEx psBad rBad
          1).1.plugin.start_message_sent = true ∧
      (∀ rest : List (Report × ℚ), (runReports envEx
          (pytest_runtest_logreport envEx psBad rBad 1).1 rest).2.countP
          isSessionStarted = 0)) :=
  ⟨rfl, rfl, rfl, rfl,
    claim_C10_start_not_rolled_back envEx psBad rBad 1 rfl rfl rfl rfl⟩

/-- C8: the test-case counter is process-wide: each collection-report call
increments it by the number of delivered genuine test items (non-test
collection nodes are not counted), constructing a new reporter never resets
it, and the SessionStarted event carries its accumulated value — two
collection calls delivering 3 and 5 genuine items (plus 2 non-test nodes)
from process start yield `tc_count = 8` in the SessionStarted event of a
subsequent reportable result. -/
theorem claim_C8_process_wide_counter (env : Env) :
    (∀ ps result, (pytest_collectreport ps result).tc_count =
      ps.tc_count + (result.filter _is_relevant_tc).length) ∧
    (∀ ps, (constructPlugin ps).tc_count = ps.tc_count) ∧
    ((pytest_runtest_logreport env
        (constructPlugin
          (pytest_collectreport
            (pytest_collectreport initProc
              [CollectNode.item "a", CollectNode.item "b",
               CollectNode.item "c"])
            [CollectNode.item "d", CollectNode.item "e",
             CollectNode.nonItem "x", CollectNode.item "f",
             CollectNode.item "g", CollectNode.item "h",
             CollectNode.nonItem "y"]))
        rSkip 0).2.1.head? =
      some (WireEvent.sessionStarted (suite_name env) (suite_hash env) 8)) :=
  ⟨fun _ _ => rfl, fun _ => rfl, rfl⟩
